import Mathlib

/-!
Shallow embedding of the RedGradient/APIMicroservice repository.

The authoritative implementation is src/src/main.py (a FastAPI service with a
JWT bearer gate in front of a protected endpoint, plus two fake demo
endpoints).  A legacy near-duplicate of the auth core lives at src/main.py;
where the two differ (only in fetch_public_keys error handling) the legacy
variant is embedded separately with the suffix _legacy.

Modeling conventions:
  - Python dicts of string keys and string values become association lists
    (List (String × String)); membership and subscripting become List.lookup.
  - The network world of one outbound fetch is a FetchOutcome value: either an
    HTTP response arrived (with a status code and a body that parses to a JSON
    object or does not parse), or the connection timed out, or it was refused.
  - Python exceptions that can escape the embedded functions become explicit
    constructors (PyExn); a function that may raise returns a sum-like result.
  - The module-global public_keys variable can, in the real program, hold
    either a dict or None (fetch_public_keys returns None after swallowing a
    ConnectTimeout), so the cache type PyCache has both shapes.
  - jwt library behavior (PyJWT with algorithms=[RS256]): get_unverified_header
    raises DecodeError on a malformed token; jwt.decode verifies the signature
    first (InvalidSignatureError / DecodeError, both subclasses of PyJWTError),
    then validates exp (ExpiredSignatureError when exp is not in the future);
    a missing exp claim is not validated.  Signature verification is abstracted
    as a boolean predicate on the public key material.
  - FastAPI turns a raised HTTPException into a response with its status code,
    and any other uncaught exception into a 500 response (responseStatus).
  - generate_fake_users and generate_fake_orders draw random values, so the
    fake_users and fake_orders globals are modeled as arbitrary lists of the
    record types they populate.
-/

abbrev KeyId := String

abbrev PublicKey := String

/-- A JSON object of string keys and string values, as an association list. -/
abbrev KeyMap := List (KeyId × PublicKey)

/-- Body of an HTTP response from the key endpoint: either it parses as a JSON
object mapping key ids to key strings, or it does not parse as JSON. -/
inductive Body where
  | jsonDict (m : KeyMap)
  | notJson
deriving DecidableEq

/-- Outcome of the single outbound httpx request: a response with a status
code and body, a connect timeout, or a refused connection. -/
inductive FetchOutcome where
  | response (statusCode : Nat) (body : Body)
  | connectTimeout
  | connectRefused
deriving DecidableEq

/-- Python exceptions that can escape the embedded functions uncaught. -/
inductive PyExn where
  | typeError
  | connectErrorExn
  | connectTimeoutExn
  | jsonDecodeError
deriving DecidableEq

/-- What a call to fetch_public_keys does: return a parsed dict, return the
Python value None, or raise an exception. -/
inductive FetchResult where
  | dict (m : KeyMap)
  | noneVal
  | raised (e : PyExn)
deriving DecidableEq

/-- src/src/main.py lines 59 to 71.  POSTs to PUBLIC_KEYS_URL and returns
response.json() with no status check, so any response whose body parses as a
JSON object is returned as the mapping regardless of its status code; a body
that does not parse raises a JSON decode error.  httpx.ConnectTimeout is
caught, a warning is logged, and the function falls off the end returning
None.  A refused connection raises httpx.ConnectError uncaught. -/
def fetch_public_keys : FetchOutcome → FetchResult
  | .response _ (.jsonDict m) => .dict m
  | .response _ .notJson => .raised .jsonDecodeError
  | .connectTimeout => .noneVal
  | .connectRefused => .raised .connectErrorExn

/-- src/main.py lines 16 to 20 (legacy top-level module): same request and
response handling, but with no try block, so a connect timeout raises
httpx.ConnectTimeout uncaught instead of returning None. -/
def fetch_public_keys_legacy : FetchOutcome → FetchResult
  | .response _ (.jsonDict m) => .dict m
  | .response _ .notJson => .raised .jsonDecodeError
  | .connectTimeout => .raised .connectTimeoutExn
  | .connectRefused => .raised .connectErrorExn

/-- The module-global public_keys variable: a dict, or the Python value None
(assigned when fetch_public_keys swallows a timeout). -/
inductive PyCache where
  | pydict (m : KeyMap)
  | pynone
deriving DecidableEq

/-- Result of a call to get_public_key: the key string, a raised
fastapi.HTTPException with status code and detail, or another raised
exception that propagates uncaught. -/
inductive KeyResult where
  | ok (pk : PublicKey)
  | httpError (code : Nat) (detail : String)
  | raised (e : PyExn)
deriving DecidableEq

/-- One call to get_public_key: its result, the value of the public_keys
global afterwards, and how many fetch_public_keys calls it made. -/
structure KeyStep where
  result : KeyResult
  cache : PyCache
  fetches : Nat
deriving DecidableEq

/-- src/src/main.py lines 120 to 134 (identical logic at src/main.py lines 53
to 60).  Membership is tested on the global public_keys; if that global holds
None, the membership test itself raises TypeError before any fetch.  On a
miss the global is reassigned to whatever fetch_public_keys returns (a fetch
that raises leaves the global unchanged and propagates); a second miss raises
HTTPException 401 with detail Invalid key id. -/
def get_public_key (cache : PyCache) (key_id : KeyId) (net : FetchOutcome) : KeyStep :=
  match cache with
  | .pynone => ⟨.raised .typeError, .pynone, 0⟩
  | .pydict m =>
    match m.lookup key_id with
    | some pk => ⟨.ok pk, .pydict m, 0⟩
    | none =>
      match fetch_public_keys net with
      | .dict m2 =>
        match m2.lookup key_id with
        | some pk => ⟨.ok pk, .pydict m2, 1⟩
        | none => ⟨.httpError 401 "Invalid key id", .pydict m2, 1⟩
      | .noneVal => ⟨.raised .typeError, .pynone, 1⟩
      | .raised e => ⟨.raised e, .pydict m, 1⟩

/-- The unverified JWT header, as far as jwt_auth reads it: the kid entry, or
none when the header has no kid key (subscripting then raises KeyError). -/
structure Header where
  kid : Option KeyId
deriving DecidableEq

/-- The claims payload, as far as jwt_auth and PyJWT read it: the type claim
(none when absent, so that subscripting raises KeyError) and the exp claim
(none when absent, in which case PyJWT performs no expiry validation). -/
structure Payload where
  type : Option String
  exp : Option Int
deriving DecidableEq

/-- A bearer token: either not parseable as a JWT at all, or well formed with
a header, a signature abstracted as the predicate of public keys under which
it verifies, and a claims payload. -/
inductive Token where
  | malformed
  | wf (header : Header) (sigOk : PublicKey → Bool) (payload : Payload)

/-- What jwt.decode(token, public_key, algorithms=[RS256]) produces: the
payload, ExpiredSignatureError, or some other PyJWTError (DecodeError or
InvalidSignatureError). -/
inductive DecodeResult where
  | ok (p : Payload)
  | expired
  | invalid
deriving DecidableEq

/-- PyJWT jwt.decode: a malformed token fails to decode; otherwise the
signature is verified against the given key first, and only then is the exp
claim validated against the current time (expired when exp is not strictly in
the future; an absent exp is not validated). -/
def jwt_decode (t : Token) (key : PublicKey) (now : Int) : DecodeResult :=
  match t with
  | .malformed => .invalid
  | .wf _ sigOk p =>
    if sigOk key then
      match p.exp with
      | some e => if e ≤ now then .expired else .ok p
      | none => .ok p
    else .invalid

/-- A fake user record, as generated by generate_fake_users
(src/src/main.py lines 25 to 40). -/
structure User where
  id : Int
  username : String
  email : String
deriving DecidableEq

/-- A fake order record, as generated by generate_fake_orders
(src/src/main.py lines 42 to 57). -/
structure Order where
  order_id : String
  user_id : Int
  product : String
  quantity : Int
  price : Float

/-- The module-global mutable state of src/src/main.py: the public-key cache
and the two fake data lists. -/
structure AppState where
  public_keys : PyCache
  fake_users : List User
  fake_orders : List Order

/-- Result of one run of the jwt_auth dependency: it returned normally (the
protected handler then runs), or an HTTPException with status code and detail
escaped it, or some other exception escaped it uncaught. -/
inductive AuthResult where
  | ok
  | httpError (code : Nat) (detail : String)
  | raised (e : PyExn)
deriving DecidableEq

/-- One run of jwt_auth: its result, the module-global state afterwards, and
how many fetch_public_keys calls happened. -/
structure AuthStep where
  result : AuthResult
  state : AppState
  fetches : Nat

/-- src/src/main.py lines 88 to 117.  get_unverified_header on a malformed
token raises DecodeError, caught by the PyJWTError clause as detail Invalid
token; a missing kid raises KeyError, caught by the same clause; the
HTTPException raised inside get_public_key, and any non-jwt exception it
raises (TypeError, httpx errors, JSON decode errors), propagate uncaught by
the except clauses; jwt.decode maps ExpiredSignatureError to detail Token
expired and any other PyJWTError to detail Invalid token; a missing type
claim raises KeyError (detail Invalid token); a type claim other than the
exact string access raises HTTPException 401 with the f-string detail, which
the except clauses do not catch. -/
def jwt_auth (st : AppState) (t : Token) (net : FetchOutcome) (now : Int) : AuthStep :=
  match t with
  | .malformed => ⟨.httpError 401 "Invalid token", st, 0⟩
  | .wf hdr _ _ =>
    match hdr.kid with
    | none => ⟨.httpError 401 "Invalid token", st, 0⟩
    | some key_id =>
      let step := get_public_key st.public_keys key_id net
      let st2 : AppState := { st with public_keys := step.cache }
      match step.result with
      | .httpError c d => ⟨.httpError c d, st2, step.fetches⟩
      | .raised e => ⟨.raised e, st2, step.fetches⟩
      | .ok pk =>
        match jwt_decode t pk now with
        | .expired => ⟨.httpError 401 "Token expired", st2, step.fetches⟩
        | .invalid => ⟨.httpError 401 "Invalid token", st2, step.fetches⟩
        | .ok payload =>
          match payload.type with
          | none => ⟨.httpError 401 "Invalid token", st2, step.fetches⟩
          | some ty =>
            if ty = "access" then ⟨.ok, st2, step.fetches⟩
            else ⟨.httpError 401
              ("Invalid token type: expected \x27access\x27, got \x27" ++ ty ++ "\x27"), st2,
              step.fetches⟩

/-- How FastAPI turns the outcome of the dependency into an HTTP status for
the client: a raised HTTPException becomes a response with its status code, a
normal return lets the handler answer 200, and any other uncaught exception
becomes a 500 internal server error. -/
def responseStatus : AuthResult → Nat
  | .ok => 200
  | .httpError c _ => c
  | .raised _ => 500

/-- src/src/main.py lines 74 to 83, the startup half of lifespan restricted
to the key cache: public_keys is assigned whatever fetch_public_keys returns
(None after a swallowed timeout); an exception raised by the fetch escapes
the lifespan context manager, so startup aborts with that exception.  The
fake data generation that follows the assignment does not touch the cache
and is modeled separately as arbitrary lists. -/
def lifespan (net : FetchOutcome) : Except PyExn PyCache :=
  match fetch_public_keys net with
  | .dict m => .ok (.pydict m)
  | .noneVal => .ok .pynone
  | .raised e => .error e

/-- src/src/main.py lines 146 to 152: scan fake_users for the first record
with a matching id and return it; raise HTTPException 404 when none matches. -/
def users : List User → Int → Except (Nat × String) User
  | [], user_id => .error (404, "User with id " ++ toString user_id ++ " not found")
  | u :: rest, user_id => if u.id = user_id then .ok u else users rest user_id

/-- src/src/main.py lines 154 to 161: collect every order in fake_orders with
a matching user_id; the function has no error path and returns the (possibly
empty) list. -/
def orders : List Order → Int → List Order
  | [], _ => []
  | o :: rest, user_id =>
    if o.user_id = user_id then o :: orders rest user_id else orders rest user_id

/-! Helper lemmas about the resolve step. -/

theorem get_public_key_hit (m : KeyMap) (k : KeyId) (pk : PublicKey) (net : FetchOutcome)
    (h : m.lookup k = some pk) :
    get_public_key (.pydict m) k net = ⟨.ok pk, .pydict m, 0⟩ := by
  simp [get_public_key, h]

theorem get_public_key_miss_found (m m2 : KeyMap) (k : KeyId) (pk : PublicKey) (s : Nat)
    (h : m.lookup k = none) (h2 : m2.lookup k = some pk) :
    get_public_key (.pydict m) k (.response s (.jsonDict m2)) = ⟨.ok pk, .pydict m2, 1⟩ := by
  simp [get_public_key, fetch_public_keys, h, h2]

theorem get_public_key_miss_miss (m m2 : KeyMap) (k : KeyId) (s : Nat)
    (h : m.lookup k = none) (h2 : m2.lookup k = none) :
    get_public_key (.pydict m) k (.response s (.jsonDict m2))
      = ⟨.httpError 401 "Invalid key id", .pydict m2, 1⟩ := by
  simp [get_public_key, fetch_public_keys, h, h2]

/-- Claim C1: a token whose kid is neither in the current cache nor in the
mapping returned by the refetch is rejected with the unknown-key-id detail
(HTTPException 401, Invalid key id) and is never allowed, and the cache miss
makes exactly one fetch_public_keys call — no second refetch attempt. -/
theorem c1_unknown_kid_rejected_after_one_refetch (st : AppState) (m m2 : KeyMap) (k : KeyId)
    (hdr : Header) (sigOk : PublicKey → Bool) (p : Payload) (s : Nat) (now : Int)
    (hkid : hdr.kid = some k)
    (hcache : st.public_keys = .pydict m)
    (hmiss : m.lookup k = none)
    (hmiss2 : m2.lookup k = none) :
    (jwt_auth st (.wf hdr sigOk p) (.response s (.jsonDict m2)) now).result
        = .httpError 401 "Invalid key id"
    ∧ (jwt_auth st (.wf hdr sigOk p) (.response s (.jsonDict m2)) now).result ≠ .ok
    ∧ (jwt_auth st (.wf hdr sigOk p) (.response s (.jsonDict m2)) now).fetches = 1 := by
  have hstep : get_public_key st.public_keys k (.response s (.jsonDict m2))
      = ⟨.httpError 401 "Invalid key id", .pydict m2, 1⟩ := by
    rw [hcache]; exact get_public_key_miss_miss m m2 k s hmiss hmiss2
  have hauth : jwt_auth st (.wf hdr sigOk p) (.response s (.jsonDict m2)) now
      = ⟨.httpError 401 "Invalid key id", { st with public_keys := .pydict m2 }, 1⟩ := by
    simp only [jwt_auth, hkid, hstep]
  rw [hauth]
  exact ⟨rfl, by simp, rfl⟩

/-- Concrete instance of claim C1: cache holds only k1, the token names k2,
the refetch returns a mapping holding only k3. -/
theorem c1_unknown_kid_rejected_after_one_refetch_witness :
    (⟨some "k2"⟩ : Header).kid = some "k2"
    ∧ ([("k1", "pkA")] : KeyMap).lookup "k2" = none
    ∧ ([("k3", "pkC")] : KeyMap).lookup "k2" = none
    ∧ ((jwt_auth ⟨.pydict [("k1", "pkA")], [], []⟩
          (.wf ⟨some "k2"⟩ (fun _ => true) ⟨some "access", some 100⟩)
          (.response 200 (.jsonDict [("k3", "pkC")])) 0).result
        = .httpError 401 "Invalid key id"
      ∧ (jwt_auth ⟨.pydict [("k1", "pkA")], [], []⟩
          (.wf ⟨some "k2"⟩ (fun _ => true) ⟨some "access", some 100⟩)
          (.response 200 (.jsonDict [("k3", "pkC")])) 0).result ≠ .ok
      ∧ (jwt_auth ⟨.pydict [("k1", "pkA")], [], []⟩
          (.wf ⟨some "k2"⟩ (fun _ => true) ⟨some "access", some 100⟩)
          (.response 200 (.jsonDict [("k3", "pkC")])) 0).fetches = 1) :=
  ⟨rfl, by decide, by decide,
    c1_unknown_kid_rejected_after_one_refetch
      ⟨.pydict [("k1", "pkA")], [], []⟩ [("k1", "pkA")] [("k3", "pkC")] "k2"
      ⟨some "k2"⟩ (fun _ => true) ⟨some "access", some 100⟩ 200 0
      rfl rfl (by decide) (by decide)⟩

/-- Claim C2: a well-formed token whose kid resolves to a public key, whose
signature verifies under that key, whose type claim is the string access, and
whose exp is strictly in the future makes jwt_auth return normally, so the
protected handler runs. -/
theorem c2_valid_access_token_allowed (st : AppState) (hdr : Header) (sigOk : PublicKey → Bool)
    (p : Payload) (k : KeyId) (pk : PublicKey) (e : Int) (net : FetchOutcome) (now : Int)
    (hkid : hdr.kid = some k)
    (hres : (get_public_key st.public_keys k net).result = .ok pk)
    (hsig : sigOk pk = true)
    (hty : p.type = some "access")
    (hexp : p.exp = some e)
    (hfut : now < e) :
    (jwt_auth st (.wf hdr sigOk p) net now).result = .ok := by
  have hdec : jwt_decode (.wf hdr sigOk p) pk now = .ok p := by
    simp [jwt_decode, hsig, hexp, not_le.mpr hfut]
  simp only [jwt_auth, hkid, hres, hdec, hty]
  simp

/-- Concrete instance of claim C2, the allow scenario of the spec: cache
holds k1 with key pkA, the token names k1, its signature verifies exactly
under pkA, type is access, exp 100 is after now 0. -/
theorem c2_valid_access_token_allowed_witness :
    (⟨some "k1"⟩ : Header).kid = some "k1"
    ∧ (get_public_key (.pydict [("k1", "pkA")]) "k1" (.response 200 (.jsonDict []))).result
        = .ok "pkA"
    ∧ ((fun key => key == "pkA") : PublicKey → Bool) "pkA" = true
    ∧ (⟨some "access", some 100⟩ : Payload).type = some "access"
    ∧ (⟨some "access", some 100⟩ : Payload).exp = some 100
    ∧ (0 : Int) < 100
    ∧ (jwt_auth ⟨.pydict [("k1", "pkA")], [], []⟩
        (.wf ⟨some "k1"⟩ (fun key => key == "pkA") ⟨some "access", some 100⟩)
        (.response 200 (.jsonDict [])) 0).result = .ok :=
  ⟨rfl, by decide, by decide, rfl, rfl, by decide,
    c2_valid_access_token_allowed ⟨.pydict [("k1", "pkA")], [], []⟩ ⟨some "k1"⟩
      (fun key => key == "pkA") ⟨some "access", some 100⟩ "k1" "pkA" 100
      (.response 200 (.jsonDict [])) 0
      rfl (by decide) (by decide) rfl rfl (by decide)⟩

/-- Claim C7: a token whose exp is in the past while everything else is valid
(resolvable kid, signature verifying under the resolved key) is rejected with
the Token expired detail, even though the signature is valid. -/
theorem c7_expired_token_rejected (st : AppState) (hdr : Header) (sigOk : PublicKey → Bool)
    (p : Payload) (k : KeyId) (pk : PublicKey) (e : Int) (net : FetchOutcome) (now : Int)
    (hkid : hdr.kid = some k)
    (hres : (get_public_key st.public_keys k net).result = .ok pk)
    (hsig : sigOk pk = true)
    (hexp : p.exp = some e)
    (hpast : e < now) :
    (jwt_auth st (.wf hdr sigOk p) net now).result = .httpError 401 "Token expired" := by
  have hdec : jwt_decode (.wf hdr sigOk p) pk now = .expired := by
    simp [jwt_decode, hsig, hexp, le_of_lt hpast]
  simp only [jwt_auth, hkid, hres, hdec]

/-- Concrete instance of claim C7, the expired scenario of the spec: valid
signature under the cached key for k1, exp 50 before now 60. -/
theorem c7_expired_token_rejected_witness :
    (⟨some "k1"⟩ : Header).kid = some "k1"
    ∧ (get_public_key (.pydict [("k1", "pkA")]) "k1" (.response 200 (.jsonDict []))).result
        = .ok "pkA"
    ∧ ((fun key => key == "pkA") : PublicKey → Bool) "pkA" = true
    ∧ (⟨some "access", some 50⟩ : Payload).exp = some 50
    ∧ (50 : Int) < 60
    ∧ (jwt_auth ⟨.pydict [("k1", "pkA")], [], []⟩
        (.wf ⟨some "k1"⟩ (fun key => key == "pkA") ⟨some "access", some 50⟩)
        (.response 200 (.jsonDict [])) 60).result = .httpError 401 "Token expired" :=
  ⟨rfl, by decide, by decide, rfl, by decide,
    c7_expired_token_rejected ⟨.pydict [("k1", "pkA")], [], []⟩ ⟨some "k1"⟩
      (fun key => key == "pkA") ⟨some "access", some 50⟩ "k1" "pkA" 50
      (.response 200 (.jsonDict [])) 60
      rfl (by decide) (by decide) rfl (by decide)⟩

/-- Counterexample to claim C6 as stated: a token that reaches the claims
check (cached key k1, signature verifying under pkA, exp in the future) but
whose type claim is absent is rejected through the KeyError path with the
generic Invalid token detail — the very same rejection a malformed token
gets — and not with the distinct invalid-claims detail (the invalid token
type f-string) that the claims check produces, shown here for the sample
value refresh. -/
theorem c6_counterexample :
    (jwt_auth ⟨.pydict [("k1", "pkA")], [], []⟩
        (.wf ⟨some "k1"⟩ (fun key => key == "pkA") ⟨none, some 100⟩)
        (.response 200 (.jsonDict [])) 0).result = .httpError 401 "Invalid token"
    ∧ (jwt_auth ⟨.pydict [("k1", "pkA")], [], []⟩ Token.malformed
        (.response 200 (.jsonDict [])) 0).result = .httpError 401 "Invalid token"
    ∧ (jwt_auth ⟨.pydict [("k1", "pkA")], [], []⟩
        (.wf ⟨some "k1"⟩ (fun key => key == "pkA") ⟨none, some 100⟩)
        (.response 200 (.jsonDict [])) 0).result
      ≠ .httpError 401 "Invalid token type: expected \x27access\x27, got \x27refresh\x27" := by
  refine ⟨by decide, rfl, by decide⟩

/-- Claim C6 as amended: for a token that reaches the claims check, a type
claim present with any value other than the exact case-sensitive string
access yields the invalid-claims rejection (HTTPException 401 with the
invalid token type detail), while an absent type claim yields a 401 with the
generic Invalid token detail via the KeyError path; in both cases the token
is never allowed, so a refresh token never authorizes access. -/
theorem c6_amended_wrong_type_rejected (st : AppState) (hdr : Header) (sigOk : PublicKey → Bool)
    (k : KeyId) (pk : PublicKey) (e : Int) (ty : String) (net : FetchOutcome) (now : Int)
    (hkid : hdr.kid = some k)
    (hres : (get_public_key st.public_keys k net).result = .ok pk)
    (hsig : sigOk pk = true)
    (hfut : now < e)
    (hty : ty ≠ "access") :
    (jwt_auth st (.wf hdr sigOk ⟨some ty, some e⟩) net now).result
        = .httpError 401 ("Invalid token type: expected \x27access\x27, got \x27" ++ ty ++ "\x27")
    ∧ (jwt_auth st (.wf hdr sigOk ⟨some ty, some e⟩) net now).result ≠ .ok
    ∧ (jwt_auth st (.wf hdr sigOk ⟨none, some e⟩) net now).result
        = .httpError 401 "Invalid token"
    ∧ (jwt_auth st (.wf hdr sigOk ⟨none, some e⟩) net now).result ≠ .ok := by
  have hdec1 : jwt_decode (.wf hdr sigOk ⟨some ty, some e⟩) pk now = .ok ⟨some ty, some e⟩ := by
    simp [jwt_decode, hsig, not_le.mpr hfut]
  have hdec2 : jwt_decode (.wf hdr sigOk ⟨none, some e⟩) pk now = .ok ⟨none, some e⟩ := by
    simp [jwt_decode, hsig, not_le.mpr hfut]
  refine ⟨?_, ?_, ?_, ?_⟩
  · simp only [jwt_auth, hkid, hres, hdec1]
    simp [hty]
  · simp only [jwt_auth, hkid, hres, hdec1]
    simp [hty]
  · simp only [jwt_auth, hkid, hres, hdec2]
  · simp only [jwt_auth, hkid, hres, hdec2]
    simp

/-- Concrete instance of the amended claim C6: a refresh token and a token
with no type claim, both otherwise valid, are both rejected. -/
theorem c6_amended_wrong_type_rejected_witness :
    (⟨some "k1"⟩ : Header).kid = some "k1"
    ∧ (get_public_key (.pydict [("k1", "pkA")]) "k1" (.response 200 (.jsonDict []))).result
        = .ok "pkA"
    ∧ ((fun key => key == "pkA") : PublicKey → Bool) "pkA" = true
    ∧ (0 : Int) < 100
    ∧ ("refresh" : String) ≠ "access"
    ∧ ((jwt_auth ⟨.pydict [("k1", "pkA")], [], []⟩
          (.wf ⟨some "k1"⟩ (fun key => key == "pkA") ⟨some "refresh", some 100⟩)
          (.response 200 (.jsonDict [])) 0).result
        = .httpError 401 "Invalid token type: expected \x27access\x27, got \x27refresh\x27"
      ∧ (jwt_auth ⟨.pydict [("k1", "pkA")], [], []⟩
          (.wf ⟨some "k1"⟩ (fun key => key == "pkA") ⟨some "refresh", some 100⟩)
          (.response 200 (.jsonDict [])) 0).result ≠ .ok
      ∧ (jwt_auth ⟨.pydict [("k1", "pkA")], [], []⟩
          (.wf ⟨some "k1"⟩ (fun key => key == "pkA") ⟨none, some 100⟩)
          (.response 200 (.jsonDict [])) 0).result = .httpError 401 "Invalid token"
      ∧ (jwt_auth ⟨.pydict [("k1", "pkA")], [], []⟩
          (.wf ⟨some "k1"⟩ (fun key => key == "pkA") ⟨none, some 100⟩)
          (.response 200 (.jsonDict [])) 0).result ≠ .ok) :=
  ⟨rfl, by decide, by decide, by decide, by decide,
    c6_amended_wrong_type_rejected ⟨.pydict [("k1", "pkA")], [], []⟩ ⟨some "k1"⟩
      (fun key => key == "pkA") "k1" "pkA" 100 "refresh"
      (.response 200 (.jsonDict [])) 0
      rfl (by decide) (by decide) (by decide) (by decide)⟩

/-- Claim C8: resolving an identifier already present in the cache makes no
fetch_public_keys call, returns the cached key, and leaves the cache
unchanged; a second call with the same identifier (under any network
conditions) behaves identically, so two calls make zero network calls in
total and return the same key. -/
theorem c8_resolve_idempotent_no_fetch (m : KeyMap) (k : KeyId) (pk : PublicKey)
    (net net2 : FetchOutcome) (h : m.lookup k = some pk) :
    get_public_key (.pydict m) k net = ⟨.ok pk, .pydict m, 0⟩
    ∧ get_public_key (.pydict m) k net2 = ⟨.ok pk, .pydict m, 0⟩ :=
  ⟨get_public_key_hit m k pk net h, get_public_key_hit m k pk net2 h⟩

/-- Concrete instance of claim C8: k1 is cached; two consecutive resolves of
k1 each make zero fetches, return pkA, and leave the cache as it was. -/
theorem c8_resolve_idempotent_no_fetch_witness :
    ([("k1", "pkA")] : KeyMap).lookup "k1" = some "pkA"
    ∧ (get_public_key (.pydict [("k1", "pkA")]) "k1" .connectRefused
        = ⟨.ok "pkA", .pydict [("k1", "pkA")], 0⟩
      ∧ get_public_key (.pydict [("k1", "pkA")]) "k1" (.response 200 (.jsonDict []))
        = ⟨.ok "pkA", .pydict [("k1", "pkA")], 0⟩) :=
  ⟨by decide,
    c8_resolve_idempotent_no_fetch [("k1", "pkA")] "k1" "pkA" .connectRefused
      (.response 200 (.jsonDict [])) (by decide)⟩

/-- Claim C3, behavior of the code at the failing inputs: a refused
connection or an unparseable body at startup makes lifespan raise, so the
process fails to boot instead of starting with an empty cache; a connect
timeout lets the process start but with the cache holding None rather than an
empty mapping, after which a verification — even one whose refetch would
return the needed key — raises TypeError with zero refetch attempts and
surfaces as a 500 internal server error, not as an unknown-key-id or
service-unavailable rejection. -/
theorem c3_startup_failure_not_fail_secure :
    lifespan .connectRefused = .error .connectErrorExn
    ∧ lifespan (.response 200 .notJson) = .error .jsonDecodeError
    ∧ lifespan .connectTimeout = .ok .pynone
    ∧ (jwt_auth ⟨.pynone, [], []⟩
        (.wf ⟨some "k1"⟩ (fun _ => true) ⟨some "access", some 100⟩)
        (.response 200 (.jsonDict [("k1", "pkA")])) 0).result = .raised .typeError
    ∧ (jwt_auth ⟨.pynone, [], []⟩
        (.wf ⟨some "k1"⟩ (fun _ => true) ⟨some "access", some 100⟩)
        (.response 200 (.jsonDict [("k1", "pkA")])) 0).fetches = 0
    ∧ responseStatus (.raised .typeError) = 500 :=
  ⟨rfl, rfl, rfl, by decide, rfl, rfl⟩

/-- Counterexample to claim C4 as stated: a non-2xx response (here a 503)
whose body parses as the empty JSON object makes fetch_public_keys return the
empty mapping itself — the exact value a successful 200 with zero keys
returns — in both the current and the legacy variant, so this network failure
mode is not distinguishable from the service returning zero keys. -/
theorem c4_counterexample :
    fetch_public_keys (.response 503 (.jsonDict [])) = .dict []
    ∧ fetch_public_keys (.response 200 (.jsonDict [])) = .dict []
    ∧ fetch_public_keys_legacy (.response 503 (.jsonDict [])) = .dict [] :=
  ⟨rfl, rfl, rfl⟩

/-- Claim C4 as amended: transport-level failures are distinguishable — a
refused connection raises httpx.ConnectError, a timeout returns None in the
current variant (and raises httpx.ConnectTimeout in the legacy variant), and
an unparseable body raises a JSON decode error, none of which is the empty
mapping — but the status code of a received response is never checked, so a
non-2xx response with a JSON body is returned exactly like a success. -/
theorem c4_amended_only_transport_failures_distinguishable (s : Nat) (m : KeyMap) :
    fetch_public_keys .connectRefused = .raised .connectErrorExn
    ∧ fetch_public_keys .connectTimeout = .noneVal
    ∧ fetch_public_keys_legacy .connectTimeout = .raised .connectTimeoutExn
    ∧ FetchResult.noneVal ≠ .dict []
    ∧ FetchResult.raised .connectErrorExn ≠ .dict []
    ∧ fetch_public_keys (.response s .notJson) = .raised .jsonDecodeError
    ∧ fetch_public_keys (.response s (.jsonDict m)) = .dict m :=
  ⟨rfl, rfl, rfl, by decide, by decide, rfl, rfl⟩

/-- Counterexample to claim C5 as stated: on a cache miss whose refetch hits
a refused connection, the condition that propagates out of resolve is an
uncaught httpx.ConnectError that FastAPI answers with a 500 internal server
error, while the unknown-key-id condition is an HTTPException answered with
401 — the two do not surface to the end client as the same 401 rejection. -/
theorem c5_counterexample :
    (jwt_auth ⟨.pydict [], [], []⟩
        (.wf ⟨some "k2"⟩ (fun _ => true) ⟨some "access", some 100⟩)
        .connectRefused 0).result = .raised .connectErrorExn
    ∧ responseStatus (jwt_auth ⟨.pydict [], [], []⟩
        (.wf ⟨some "k2"⟩ (fun _ => true) ⟨some "access", some 100⟩)
        .connectRefused 0).result = 500
    ∧ (jwt_auth ⟨.pydict [], [], []⟩
        (.wf ⟨some "k2"⟩ (fun _ => true) ⟨some "access", some 100⟩)
        (.response 200 (.jsonDict [])) 0).result = .httpError 401 "Invalid key id"
    ∧ responseStatus (jwt_auth ⟨.pydict [], [], []⟩
        (.wf ⟨some "k2"⟩ (fun _ => true) ⟨some "access", some 100⟩)
        (.response 200 (.jsonDict [])) 0).result = 401 :=
  ⟨by decide, by decide, by decide, by decide⟩

/-- Claim C5 as amended: when the refetch triggered by a cache miss itself
fails, resolve propagates a condition distinct from the unknown-key-id
rejection — an uncaught exception (httpx.ConnectError on a refused
connection, TypeError after the swallowed timeout turns the cache into None,
a JSON decode error on an unparseable body) — but that condition surfaces to
the end client as a 500 internal server error, not as the 401 used for an
unknown key id. -/
theorem c5_amended_refetch_failure_distinct_but_500 (st : AppState) (m : KeyMap) (k : KeyId)
    (hdr : Header) (sigOk : PublicKey → Bool) (p : Payload) (now : Int) (s : Nat)
    (hcache : st.public_keys = .pydict m)
    (hkid : hdr.kid = some k)
    (hmiss : m.lookup k = none) :
    (jwt_auth st (.wf hdr sigOk p) .connectRefused now).result = .raised .connectErrorExn
    ∧ (jwt_auth st (.wf hdr sigOk p) .connectTimeout now).result = .raised .typeError
    ∧ (jwt_auth st (.wf hdr sigOk p) (.response s .notJson) now).result
        = .raised .jsonDecodeError
    ∧ AuthResult.raised .connectErrorExn ≠ .httpError 401 "Invalid key id"
    ∧ AuthResult.raised .typeError ≠ .httpError 401 "Invalid key id"
    ∧ AuthResult.raised .jsonDecodeError ≠ .httpError 401 "Invalid key id"
    ∧ responseStatus (.raised .connectErrorExn) = 500
    ∧ responseStatus (.raised .typeError) = 500
    ∧ responseStatus (.raised .jsonDecodeError) = 500
    ∧ responseStatus (.httpError 401 "Invalid key id") = 401 := by
  have h1 : get_public_key st.public_keys k .connectRefused
      = ⟨.raised .connectErrorExn, .pydict m, 1⟩ := by
    rw [hcache]; simp [get_public_key, fetch_public_keys, hmiss]
  have h2 : get_public_key st.public_keys k .connectTimeout
      = ⟨.raised .typeError, .pynone, 1⟩ := by
    rw [hcache]; simp [get_public_key, fetch_public_keys, hmiss]
  have h3 : get_public_key st.public_keys k (.response s .notJson)
      = ⟨.raised .jsonDecodeError, .pydict m, 1⟩ := by
    rw [hcache]; simp [get_public_key, fetch_public_keys, hmiss]
  refine ⟨?_, ?_, ?_, by decide, by decide, by decide, rfl, rfl, rfl, rfl⟩
  · simp only [jwt_auth, hkid, h1]
  · simp only [jwt_auth, hkid, h2]
  · simp only [jwt_auth, hkid, h3]

/-- Concrete instance of the amended claim C5: empty cached mapping, token
naming k2, each refetch failure mode. -/
theorem c5_amended_refetch_failure_distinct_but_500_witness :
    (⟨.pydict [], [], []⟩ : AppState).public_keys = .pydict []
    ∧ (⟨some "k2"⟩ : Header).kid = some "k2"
    ∧ ([] : KeyMap).lookup "k2" = none
    ∧ ((jwt_auth ⟨.pydict [], [], []⟩
          (.wf ⟨some "k2"⟩ (fun _ => true) ⟨some "access", some 100⟩)
          .connectRefused 0).result = .raised .connectErrorExn
      ∧ (jwt_auth ⟨.pydict [], [], []⟩
          (.wf ⟨some "k2"⟩ (fun _ => true) ⟨some "access", some 100⟩)
          .connectTimeout 0).result = .raised .typeError
      ∧ (jwt_auth ⟨.pydict [], [], []⟩
          (.wf ⟨some "k2"⟩ (fun _ => true) ⟨some "access", some 100⟩)
          (.response 503 .notJson) 0).result = .raised .jsonDecodeError
      ∧ AuthResult.raised .connectErrorExn ≠ .httpError 401 "Invalid key id"
      ∧ AuthResult.raised .typeError ≠ .httpError 401 "Invalid key id"
      ∧ AuthResult.raised .jsonDecodeError ≠ .httpError 401 "Invalid key id"
      ∧ responseStatus (.raised .connectErrorExn) = 500
      ∧ responseStatus (.raised .typeError) = 500
      ∧ responseStatus (.raised .jsonDecodeError) = 500
      ∧ responseStatus (.httpError 401 "Invalid key id") = 401) :=
  ⟨rfl, rfl, rfl,
    c5_amended_refetch_failure_distinct_but_500 ⟨.pydict [], [], []⟩ [] "k2"
      ⟨some "k2"⟩ (fun _ => true) ⟨some "access", some 100⟩ 0 503
      rfl rfl rfl⟩

/-- The cache after one resolve step is either untouched or exactly the value
fetch_public_keys returned (the full fresh mapping, or None after a swallowed
timeout); no merged or partially updated mapping is ever installed. -/
theorem get_public_key_cache_spec (cache : PyCache) (k : KeyId) (net : FetchOutcome) :
    (get_public_key cache k net).cache = cache
    ∨ (∃ m2, fetch_public_keys net = .dict m2 ∧ (get_public_key cache k net).cache = .pydict m2)
    ∨ (fetch_public_keys net = .noneVal ∧ (get_public_key cache k net).cache = .pynone) := by
  cases cache with
  | pynone => exact Or.inl rfl
  | pydict m =>
    cases hl : m.lookup k with
    | some pk => exact Or.inl (by simp [get_public_key, hl])
    | none =>
      cases hf : fetch_public_keys net with
      | dict m2 =>
        cases hl2 : m2.lookup k with
        | some pk => exact Or.inr (Or.inl ⟨m2, rfl, by simp [get_public_key, hl, hf, hl2]⟩)
        | none => exact Or.inr (Or.inl ⟨m2, rfl, by simp [get_public_key, hl, hf, hl2]⟩)
      | noneVal => exact Or.inr (Or.inr ⟨rfl, by simp [get_public_key, hl, hf]⟩)
      | raised e => exact Or.inl (by simp [get_public_key, hl, hf])

/-- Claim C9: a run of jwt_auth mutates no module-global state other than
possibly the public-key cache — the fake_users and fake_orders globals are
untouched — and when the cache does change it is replaced wholesale with the
value the refetch returned: the complete fresh mapping (or None after a
swallowed timeout), never a partial or merged update of individual entries. -/
theorem c9_verify_frame (st : AppState) (t : Token) (net : FetchOutcome) (now : Int) :
    (jwt_auth st t net now).state.fake_users = st.fake_users
    ∧ (jwt_auth st t net now).state.fake_orders = st.fake_orders
    ∧ ((jwt_auth st t net now).state.public_keys = st.public_keys
      ∨ (∃ m2, fetch_public_keys net = .dict m2
          ∧ (jwt_auth st t net now).state.public_keys = .pydict m2)
      ∨ (fetch_public_keys net = .noneVal
          ∧ (jwt_auth st t net now).state.public_keys = .pynone)) := by
  cases t with
  | malformed => exact ⟨rfl, rfl, Or.inl rfl⟩
  | wf hdr sigOk p =>
    obtain ⟨kidOpt⟩ := hdr
    cases kidOpt with
    | none => exact ⟨rfl, rfl, Or.inl rfl⟩
    | some k =>
      have hstate : (jwt_auth st (.wf ⟨some k⟩ sigOk p) net now).state
          = { st with public_keys := (get_public_key st.public_keys k net).cache } := by
        simp only [jwt_auth]
        rcases hres : (get_public_key st.public_keys k net).result with pk | ⟨c, d⟩ | e <;>
          simp only [hres] <;> try rfl
        rcases hdec : jwt_decode (.wf ⟨some k⟩ sigOk p) pk now with q | _ | _ <;>
          simp only [hdec] <;> try rfl
        rcases hq : q.type with _ | ty <;> simp only [hq] <;> try rfl
        by_cases hty : ty = "access" <;> simp [hty]
      refine ⟨by rw [hstate], by rw [hstate], ?_⟩
      rw [hstate]
      exact get_public_key_cache_spec st.public_keys k net

/-- The users handler returns the 404 error whenever no stored user has the
requested id. -/
theorem users_all_miss (user_id : Int) : ∀ (fu : List User), (∀ u ∈ fu, u.id ≠ user_id) →
    users fu user_id = .error (404, "User with id " ++ toString user_id ++ " not found")
  | [], _ => rfl
  | u :: rest, hu => by
    have h1 : u.id ≠ user_id := hu u (List.mem_cons_self u rest)
    have h2 := users_all_miss user_id rest (fun v hv => hu v (List.mem_cons_of_mem u hv))
    simp [users, h1, h2]

/-- The orders handler returns the empty list whenever no stored order has
the requested user_id. -/
theorem orders_all_miss (user_id : Int) : ∀ (fo : List Order), (∀ o ∈ fo, o.user_id ≠ user_id) →
    orders fo user_id = []
  | [], _ => rfl
  | o :: rest, ho => by
    have h1 : o.user_id ≠ user_id := ho o (List.mem_cons_self o rest)
    have h2 := orders_all_miss user_id rest (fun v hv => ho v (List.mem_cons_of_mem o hv))
    simp [orders, h1, h2]

/-- Claim C10: the two fake lookup endpoints treat an unknown id differently:
users raises HTTPException 404 when no generated user matches, while orders
returns the empty list when no generated order matches — and orders has no
error path at all, its result type being a plain list. -/
theorem c10_users_404_orders_empty (fu : List User) (fo : List Order) (user_id : Int)
    (hu : ∀ u ∈ fu, u.id ≠ user_id) (ho : ∀ o ∈ fo, o.user_id ≠ user_id) :
    users fu user_id = .error (404, "User with id " ++ toString user_id ++ " not found")
    ∧ orders fo user_id = [] :=
  ⟨users_all_miss user_id fu hu, orders_all_miss user_id fo ho⟩

/-- Concrete instance of claim C10: one generated user with id 0 and one of
its orders; the id 99 matches neither, so users answers 404 and orders
answers the empty list. -/
theorem c10_users_404_orders_empty_witness :
    (∀ u ∈ [(⟨0, "john.smith1", "john.smith1@example.com"⟩ : User)], u.id ≠ (99 : Int))
    ∧ (∀ o ∈ [(⟨"3f2b", 0, "Laptop", 1, 10.0⟩ : Order)], o.user_id ≠ (99 : Int))
    ∧ (users [⟨0, "john.smith1", "john.smith1@example.com"⟩] 99
        = .error (404, "User with id " ++ toString (99 : Int) ++ " not found")
      ∧ orders [⟨"3f2b", 0, "Laptop", 1, 10.0⟩] 99 = []) :=
  ⟨by decide, by decide,
    c10_users_404_orders_empty [⟨0, "john.smith1", "john.smith1@example.com"⟩]
      [⟨"3f2b", 0, "Laptop", 1, 10.0⟩] 99 (by decide) (by decide)⟩
